import Mathlib

/-!
Shallow embedding of the core of the Bemlo vacancy scraper (src/api.py):
token acquisition and refresh (class AuthTokens, BemloClient.login /
refresh / ensure_valid_token), the authenticated GraphQL request with its
single 401 retry (BemloClient._make_request), cursor pagination
(BemloClient.fetch_all_vacancies), and snapshot reconciliation
(save_vacancy, process_vacancies).

Modelling conventions:
- Unix timestamps are Int (seconds); `now` is passed explicitly where the
  Python code reads datetime.now().
- HTTP responses are records of the status code and the pieces of the
  body/headers the code actually reads.
- Decoding of the JWT payload segment (base64 + JSON parse, lines 298-304
  and 602-609 of src/api.py) is abstracted as a `JwtDecode` oracle: either
  the decode raises, or it yields a JSON object whose optional integer
  field exp is reported.  The control flow around the decode is embedded
  exactly.
- The SQLite vacancies table is a keyed store `String → Option Row`; the
  Row carries the columns the reconciliation logic reads or that the
  claims mention (fill_rate, dynamic_status, procured_amount,
  first_seen_at, last_updated_at, title).  SQLite REAL columns and the
  incoming JSON numbers are modelled as Rat, NULL as Option.none.
-/

/-! ## Auth model (src/api.py lines 283-314, 536-652) -/

/-- Credential set held in memory: mirrors the @dataclass AuthTokens of
src/api.py (lines 283-288). -/
structure AuthTokens where
  access_token : String
  refresh_token : String
  front_token : String
  expires_at : Int
deriving DecidableEq

/-- Response headers read by AuthTokens.from_headers (lines 292-294):
the three SuperTokens session headers; Option.none models an absent
header (headers.get default applies). -/
structure Headers where
  stAccessToken : Option String
  stRefreshToken : Option String
  frontToken : Option String
deriving DecidableEq

/-- Outcome of decoding the access token's payload segment: `failure`
models the except branch (base64/JSON decode raised), `success exp`
models a decoded JSON object whose optional exp claim is `exp`
(decoded.get, line 302). -/
inductive JwtDecode where
  | failure
  | success (exp : Option Int)
deriving DecidableEq

/-- Expiry computed from a decode attempt (lines 298-304 and 601-609):
the decoded exp claim with default 0 when the claim is missing, or
now + 3600 when decoding raises. -/
def expiryOfDecode (decode : JwtDecode) (now : Int) : Int :=
  match decode with
  | JwtDecode.failure => now + 3600
  | JwtDecode.success e => e.getD 0

/-- AuthTokens.from_headers (lines 290-311): reads the three session
headers with default empty string; if an access token is present, the
expiry is the decoded exp claim (default 0 when the claim is missing),
or now + 3600 when decoding raises; with no access token it stays 0. -/
def AuthTokens.from_headers (h : Headers) (decode : JwtDecode) (now : Int) : AuthTokens :=
  let access := h.stAccessToken.getD ""
  let expires : Int :=
    if access = "" then 0
    else expiryOfDecode decode now
  { access_token := access
    refresh_token := h.stRefreshToken.getD ""
    front_token := h.frontToken.getD ""
    expires_at := expires }

/-- AuthTokens.is_expired (lines 313-314): true when
now >= expires_at - 60. -/
def AuthTokens.is_expired (t : AuthTokens) (now : Int) : Bool :=
  decide (t.expires_at - 60 ≤ now)

/-- Action taken by BemloClient.ensure_valid_token. -/
inductive AuthAction where
  | login
  | refresh
  | noop
deriving DecidableEq

/-- BemloClient.ensure_valid_token (lines 621-626): login when no tokens
are held, refresh when the held tokens are expired, otherwise nothing. -/
def ensure_valid_token (tokens : Option AuthTokens) (now : Int) : AuthAction :=
  match tokens with
  | Option.none => AuthAction.login
  | Option.some t => if t.is_expired now then AuthAction.refresh else AuthAction.noop

/-- Response of the refresh endpoint as read by BemloClient.refresh
(lines 587-595): status code and the three session headers. -/
structure RefreshResponse where
  status : Nat
  stAccessToken : Option String
  stRefreshToken : Option String
  frontToken : Option String
deriving DecidableEq

/-- Result of BemloClient.refresh: either the call delegated to login()
(no refresh token, non-200 response, or missing access token), or a new
credential set replaced the held one. -/
inductive RefreshResult where
  | delegatedLogin
  | refreshed (t : AuthTokens)
deriving DecidableEq

/-- BemloClient.refresh (lines 571-619): with no held tokens or an empty
refresh token it delegates to login(); on a non-200 response it delegates
to login(); a missing or empty st-access-token header delegates to
login(); otherwise the new credential takes the response's access token,
keeps the prior refresh and front tokens when their headers are absent
(response.headers.get with the prior value as default, lines 594-595),
and decodes the expiry like from_headers. -/
def BemloClient.refresh (tokens : Option AuthTokens) (resp : RefreshResponse)
    (decode : JwtDecode) (now : Int) : RefreshResult :=
  match tokens with
  | Option.none => RefreshResult.delegatedLogin
  | Option.some t =>
    if t.refresh_token = "" then RefreshResult.delegatedLogin
    else if resp.status ≠ 200 then RefreshResult.delegatedLogin
    else
      let access := resp.stAccessToken.getD ""
      if access = "" then RefreshResult.delegatedLogin
      else
        RefreshResult.refreshed
          { access_token := access
            refresh_token := resp.stRefreshToken.getD t.refresh_token
            front_token := resp.frontToken.getD t.front_token
            expires_at := expiryOfDecode decode now }

/-! ## GraphQL request model (src/api.py lines 628-652) -/

/-- JSON body of a GraphQL response as relevant here: a 200 body may
carry a data payload and/or a GraphQL-level errors array (modelled as a
list of error strings; the empty list models an absent errors key). -/
structure GqlBody where
  payload : Option String
  errors : List String
deriving DecidableEq

/-- HTTP response of the GraphQL endpoint: status code and parsed body. -/
structure GqlResponse where
  status : Nat
  body : GqlBody
deriving DecidableEq

/-- Result of BemloClient._make_request: the returned response.json()
body, or the message of the raised exception. -/
inductive ReqResult where
  | ok (body : GqlBody)
  | err (msg : String)
deriving DecidableEq

/-- BemloClient._make_request (lines 642-652), after ensure_valid_token:
the first POST yields `first`; on a 401 the client refreshes and retries
once, yielding `retry`; the final response raises when its status is not
200 and otherwise its body is returned as-is (the body's errors array is
never inspected). -/
def make_request (first retry : GqlResponse) : ReqResult :=
  let resp := if first.status = 401 then retry else first
  if resp.status ≠ 200 then ReqResult.err "GraphQL request failed"
  else ReqResult.ok resp.body

/-- Number of refresh-and-retry rounds _make_request performs for one
call: one when the first response is a 401, zero otherwise (the retry is
straight-line code, lines 644-647, not a loop). -/
def refreshRetries (first : GqlResponse) : Nat :=
  if first.status = 401 then 1 else 0

/-! ## Pagination model (src/api.py lines 670-697) -/

/-- Vacancy node of the list query as far as pagination is concerned;
the reconciler has its own richer record type. -/
structure Node where
  nodeId : String
deriving DecidableEq

/-- Edge of the paged connection: edge.get with an empty-dict default
followed by the truthiness test on line 687 makes the node optional. -/
structure Edge where
  node : Option Node
deriving DecidableEq

/-- pageInfo of the paged connection (hasNextPage, endCursor). -/
structure PageInfo where
  hasNextPage : Bool
  endCursor : Option String
deriving DecidableEq

/-- One parsed page response: result["data"]["vacancies"] of the list
query, with edges and pageInfo. -/
structure PageResp where
  edges : List Edge
  pageInfo : PageInfo
deriving DecidableEq

/-- BemloClient.fetch_all_vacancies (lines 670-697) over the sequence of
page responses the endpoint returns, in order.  Each iteration appends
the truthy nodes of the fetched page; the loop exits only when a page
reports hasNextPage falsy (there is no page cap); exhausting the supplied
sequence models the endpoint having nothing further to return. -/
def fetch_all_vacancies : List PageResp → List Node
  | [] => []
  | p :: rest =>
    let nodes := p.edges.filterMap Edge.node
    if p.pageInfo.hasNextPage then nodes ++ fetch_all_vacancies rest
    else nodes

/-- Number of page fetches fetch_all_vacancies performs on the supplied
response sequence: every iteration of the while loop fetches one page,
including the final one whose hasNextPage is falsy. -/
def pagesFetched : List PageResp → Nat
  | [] => 0
  | p :: rest => 1 + (if p.pageInfo.hasNextPage then pagesFetched rest else 0)

/-! ## Reconciliation model (src/api.py lines 704-763 and 931-1014) -/

/-- Nested tender object of an incoming vacancy dict, restricted to the
fields the reconciliation logic reads. -/
structure Tender where
  tenderId : Option String
  dynamicStatus : Option String
  fillRate : Option Rat
deriving DecidableEq

/-- Tender with every field absent: models the empty-dict fallback of
vacancy.get with the `or \x7b\x7d` idiom on line 947. -/
def Tender.empty : Tender :=
  { tenderId := Option.none, dynamicStatus := Option.none, fillRate := Option.none }

/-- Incoming vacancy record, restricted to the fields the reconciliation
step reads or writes into the modelled columns. -/
structure Vacancy where
  vacId : String
  title : Option String
  procuredAmount : Option Rat
  tender : Option Tender
deriving DecidableEq

/-- Tender of a vacancy with the empty-dict default applied. -/
def Vacancy.tenderD (v : Vacancy) : Tender :=
  v.tender.getD Tender.empty

/-- Persisted snapshot row for one vacancy id, restricted to the columns
read by the change check (fill_rate, dynamic_status) and the columns the
claims track (procured_amount, first_seen_at, last_updated_at, title). -/
structure Row where
  title : Option String
  procured_amount : Option Rat
  fill_rate : Option Rat
  dynamic_status : Option String
  first_seen_at : Int
  last_updated_at : Int
deriving DecidableEq

/-- Keyed snapshot store: the vacancies table indexed by primary key. -/
def Store : Type := String → Option Row

/-- save_vacancy (lines 704-763): INSERT OR REPLACE of the row for
v.vacId.  first_seen_at is now when is_new, and otherwise the stored
row's first_seen_at (line 760); when is_new is false and no row exists,
fetchone() returns no row and the subscript raises, modelled as
Option.none.  last_updated_at is always now; fill_rate and
dynamic_status come from the tender, procured_amount from the vacancy. -/
def save_vacancy (store : Store) (v : Vacancy) (is_new : Bool) (now : Int) : Option Store :=
  match (if is_new then Option.some now else (store v.vacId).map Row.first_seen_at) with
  | Option.none => Option.none
  | Option.some fs =>
    Option.some (fun i =>
      if i = v.vacId then
        Option.some
          { title := v.title
            procured_amount := v.procuredAmount
            fill_rate := v.tenderD.fillRate
            dynamic_status := v.tenderD.dynamicStatus
            first_seen_at := fs
            last_updated_at := now }
      else store i)

/-- JSON value appearing in the per-field old/new change report. -/
inductive JVal where
  | jnull
  | jnum (q : Rat)
  | jstr (s : String)
deriving DecidableEq

/-- Optional number as a JSON value. -/
def JVal.ofRat : Option Rat → JVal
  | Option.none => JVal.jnull
  | Option.some q => JVal.jnum q

/-- Optional string as a JSON value. -/
def JVal.ofStr : Option String → JVal
  | Option.none => JVal.jnull
  | Option.some s => JVal.jstr s

/-- Changes report built for an updated vacancy (lines 996-999): the
dict always carries both a fill_rate entry and a status entry, each with
the old and the new value, whether or not that field differed. -/
def changesReport (oldFill newFill : Option Rat) (oldStatus newStatus : Option String) :
    List (String × JVal × JVal) :=
  [("fill_rate", JVal.ofRat oldFill, JVal.ofRat newFill),
   ("status", JVal.ofStr oldStatus, JVal.ofStr newStatus)]

/-- Classification of one incoming vacancy by process_vacancies. -/
inductive Outcome where
  | newRecord
  | updated (changes : List (String × JVal × JVal))
  | unchanged
deriving DecidableEq

/-- Per-vacancy reconciliation step of process_vacancies (lines
945-1014): look the id up in the store; absent ids are saved as new;
present ids are compared on exactly fill_rate and dynamic_status (lines
985-990) and saved with is_new=False when either differs, with the
changes report attached; otherwise nothing is written. -/
def reconcileStep (store : Store) (v : Vacancy) (now : Int) : Option (Outcome × Store) :=
  match store v.vacId with
  | Option.none =>
    match save_vacancy store v true now with
    | Option.none => Option.none
    | Option.some s => Option.some (Outcome.newRecord, s)
  | Option.some existing =>
    if existing.fill_rate ≠ v.tenderD.fillRate ∨ existing.dynamic_status ≠ v.tenderD.dynamicStatus then
      match save_vacancy store v false now with
      | Option.none => Option.none
      | Option.some s =>
        Option.some (Outcome.updated (changesReport existing.fill_rate v.tenderD.fillRate
          existing.dynamic_status v.tenderD.dynamicStatus), s)
    else Option.some (Outcome.unchanged, store)

/-! ## Claims about the auth layer -/

/-- C1 counterexample: with a held credential expiring at 1000 and now =
800, the claimed 300-second buffer demands a refresh (800 is at or past
1000 - 300), but ensure_valid_token takes no action: the buffer coded in
is_expired (line 314) is 60 seconds, not 300. -/
theorem ensure_valid_token_300s_buffer_false :
    ensure_valid_token (Option.some
      { access_token := "a", refresh_token := "r", front_token := "f", expires_at := 1000 })
      800 = AuthAction.noop
    ∧ (1000 - 300 : Int) ≤ 800 :=
  ⟨rfl, by decide⟩

/-- C1 (amended): with a held credential, ensure_valid_token triggers
refresh if and only if now ≥ expires_at − 60 — a 60-second safety
buffer, not 300 seconds; with no held credential it calls login. -/
theorem ensure_valid_token_60s_buffer (t : AuthTokens) (now : Int) :
    (ensure_valid_token (Option.some t) now = AuthAction.refresh ↔ t.expires_at - 60 ≤ now)
    ∧ ensure_valid_token Option.none now = AuthAction.login := by
  refine ⟨?_, rfl⟩
  by_cases h : t.expires_at - 60 ≤ now <;>
    simp [ensure_valid_token, AuthTokens.is_expired, h]

/-- C10: when the access token header is present and nonempty and its
payload decodes to an object with no exp claim, from_headers sets
expires_at to 0 (not now + 3600), so the credential is immediately
expired and the very next ensure_valid_token triggers a refresh; the
now + 3600 default applies exactly when decoding raises. -/
theorem from_headers_missing_exp_immediate_refresh (h : Headers) (a : String)
    (now now0 : Int) (ha : h.stAccessToken = Option.some a) (hne : a ≠ "")
    (hnow : 0 ≤ now) :
    (AuthTokens.from_headers h (JwtDecode.success Option.none) now0).expires_at = 0
    ∧ (AuthTokens.from_headers h (JwtDecode.success Option.none) now0).is_expired now = true
    ∧ ensure_valid_token
        (Option.some (AuthTokens.from_headers h (JwtDecode.success Option.none) now0)) now
        = AuthAction.refresh
    ∧ (AuthTokens.from_headers h JwtDecode.failure now0).expires_at = now0 + 3600 := by
  have hexp : (AuthTokens.from_headers h (JwtDecode.success Option.none) now0).expires_at = 0 := by
    simp [AuthTokens.from_headers, ha, hne, expiryOfDecode]
  have hexpired :
      (AuthTokens.from_headers h (JwtDecode.success Option.none) now0).is_expired now = true := by
    simp only [AuthTokens.is_expired, hexp, decide_eq_true_eq]
    omega
  refine ⟨hexp, hexpired, ?_, ?_⟩
  · simp [ensure_valid_token, hexpired]
  · simp [AuthTokens.from_headers, ha, hne, expiryOfDecode]

/-- C10 witness at a concrete header set and time. -/
theorem from_headers_missing_exp_immediate_refresh_witness :
    (AuthTokens.from_headers
        { stAccessToken := Option.some "tok", stRefreshToken := Option.none,
          frontToken := Option.none }
        (JwtDecode.success Option.none) 0).expires_at = 0
    ∧ (AuthTokens.from_headers
        { stAccessToken := Option.some "tok", stRefreshToken := Option.none,
          frontToken := Option.none }
        (JwtDecode.success Option.none) 0).is_expired 100 = true
    ∧ ensure_valid_token
        (Option.some (AuthTokens.from_headers
          { stAccessToken := Option.some "tok", stRefreshToken := Option.none,
            frontToken := Option.none }
          (JwtDecode.success Option.none) 0)) 100
        = AuthAction.refresh
    ∧ (AuthTokens.from_headers
        { stAccessToken := Option.some "tok", stRefreshToken := Option.none,
          frontToken := Option.none }
        JwtDecode.failure 0).expires_at = 0 + 3600 :=
  from_headers_missing_exp_immediate_refresh
    { stAccessToken := Option.some "tok", stRefreshToken := Option.none,
      frontToken := Option.none }
    "tok" 100 0 rfl (by decide) (by decide)

/-- C8: refresh delegates to login whenever no refresh token is held,
delegates to login on any non-200 refresh response instead of raising,
and on a successful refresh an absent st-refresh-token or front-token
header preserves the previously held value. -/
theorem refresh_fallback_and_header_merge (t : AuthTokens) (resp : RefreshResponse)
    (decode : JwtDecode) (now : Int) :
    BemloClient.refresh Option.none resp decode now = RefreshResult.delegatedLogin
    ∧ (t.refresh_token = "" →
        BemloClient.refresh (Option.some t) resp decode now = RefreshResult.delegatedLogin)
    ∧ (resp.status ≠ 200 →
        BemloClient.refresh (Option.some t) resp decode now = RefreshResult.delegatedLogin)
    ∧ (∀ a : String, t.refresh_token ≠ "" → resp.status = 200 →
        resp.stAccessToken = Option.some a → a ≠ "" →
        resp.stRefreshToken = Option.none → resp.frontToken = Option.none →
        BemloClient.refresh (Option.some t) resp decode now
          = RefreshResult.refreshed
              { access_token := a
                refresh_token := t.refresh_token
                front_token := t.front_token
                expires_at := expiryOfDecode decode now }) := by
  refine ⟨rfl, ?_, ?_, ?_⟩
  · intro h
    simp [BemloClient.refresh, h]
  · intro h
    simp [BemloClient.refresh, h]
  · intro a h1 h2 h3 h4 h5 h6
    simp [BemloClient.refresh, h1, h2, h3, h4, h5, h6]

/-- C8 witness: a concrete successful refresh whose response omits the
st-refresh-token and front-token headers keeps the old values of both. -/
theorem refresh_fallback_and_header_merge_witness :
    BemloClient.refresh
      (Option.some { access_token := "old", refresh_token := "r0", front_token := "f0",
                     expires_at := 5 })
      { status := 200, stAccessToken := Option.some "na", stRefreshToken := Option.none,
        frontToken := Option.none }
      (JwtDecode.success (Option.some 50)) 7
      = RefreshResult.refreshed
          { access_token := "na", refresh_token := "r0", front_token := "f0",
            expires_at := expiryOfDecode (JwtDecode.success (Option.some 50)) 7 } :=
  (refresh_fallback_and_header_merge
    { access_token := "old", refresh_token := "r0", front_token := "f0", expires_at := 5 }
    { status := 200, stAccessToken := Option.some "na", stRefreshToken := Option.none,
      frontToken := Option.none }
    (JwtDecode.success (Option.some 50)) 7).2.2.2 "na" (by decide) rfl rfl (by decide) rfl rfl

/-! ## Claims about the GraphQL request -/

/-- C7: _make_request performs at most one refresh-and-retry per call
and exactly one when the first response is a 401; when the retry answers
200 its body is returned as the successful payload; a second 401 on the
retry raises the request-failed exception. -/
theorem make_request_single_auth_retry (first retry : GqlResponse) :
    refreshRetries first ≤ 1
    ∧ (first.status = 401 → refreshRetries first = 1)
    ∧ (first.status = 401 → retry.status = 200 →
        make_request first retry = ReqResult.ok retry.body)
    ∧ (first.status = 401 → retry.status = 401 →
        make_request first retry = ReqResult.err "GraphQL request failed") := by
  refine ⟨?_, ?_, ?_, ?_⟩
  · unfold refreshRetries
    split <;> omega
  · intro h
    simp [refreshRetries, h]
  · intro h1 h2
    simp [make_request, h1, h2]
  · intro h1 h2
    simp [make_request, h1, h2]

/-- C7 witness: a concrete 401 followed by a 200 retry returns the
retry's payload after exactly one refresh. -/
theorem make_request_single_auth_retry_witness :
    make_request { status := 401, body := { payload := Option.none, errors := [] } }
                 { status := 200, body := { payload := Option.some "d", errors := [] } }
      = ReqResult.ok { payload := Option.some "d", errors := [] }
    ∧ refreshRetries { status := 401, body := { payload := Option.none, errors := [] } } = 1 := by
  have h := make_request_single_auth_retry
    { status := 401, body := { payload := Option.none, errors := [] } }
    { status := 200, body := { payload := Option.some "d", errors := [] } }
  exact ⟨h.2.2.1 rfl rfl, h.2.1 rfl⟩

/-- C6 counterexample: a 200-status response whose body carries a
nonempty GraphQL-level errors array is returned by _make_request as a
success carrying that very body — no error is surfaced for it, because
lines 649-652 check only the HTTP status before returning
response.json(). -/
theorem make_request_graphql_errors_returned_ok :
    make_request { status := 200, body := { payload := Option.none, errors := ["denied"] } }
                 { status := 200, body := { payload := Option.none, errors := [] } }
      = ReqResult.ok { payload := Option.none, errors := ["denied"] }
    ∧ ({ payload := Option.none, errors := ["denied"] } : GqlBody).errors ≠ [] :=
  ⟨rfl, by decide⟩

/-- C6 (amended): _make_request returns every 200-status body verbatim
as a success, whether or not it contains a GraphQL-level error array; no
RemoteQueryError-style distinction exists, only non-200 statuses raise. -/
theorem make_request_200_body_verbatim (first retry : GqlResponse)
    (h : first.status = 200) :
    make_request first retry = ReqResult.ok first.body := by
  simp [make_request, h]

/-- C6 amended-claim witness at a concrete error-carrying 200 body. -/
theorem make_request_200_body_verbatim_witness :
    make_request { status := 200, body := { payload := Option.none, errors := ["oops"] } }
                 { status := 500, body := { payload := Option.none, errors := [] } }
      = ReqResult.ok { payload := Option.none, errors := ["oops"] } :=
  make_request_200_body_verbatim
    { status := 200, body := { payload := Option.none, errors := ["oops"] } }
    { status := 500, body := { payload := Option.none, errors := [] } } rfl

/-! ## Claims about pagination -/

/-- C2 counterexample: over a source that answers 25 pages each
reporting hasNextPage = true, fetch_all_vacancies performs 25 page
fetches, exceeding the claimed default cap of 20: the while loop of
lines 676-697 has no maxPages bound. -/
theorem fetch_all_vacancies_page_cap_false :
    pagesFetched (List.replicate 25
      { edges := [], pageInfo := { hasNextPage := true, endCursor := Option.none } }) = 25
    ∧ 20 < 25 :=
  ⟨rfl, by decide⟩

/-- C2 (amended): fetch_all_vacancies has no page cap: it stops only
when a page reports hasNextPage falsy (or when the source has nothing
further to return), so over any response sequence whose every page
reports hasNextPage = true it performs exactly as many fetches as there
are responses. -/
theorem fetch_all_vacancies_no_cap (ps : List PageResp)
    (h : ∀ p ∈ ps, p.pageInfo.hasNextPage = true) :
    pagesFetched ps = ps.length := by
  induction ps with
  | nil => rfl
  | cons p rest ih =>
    have hp := h p (List.mem_cons_self p rest)
    have hrest := ih (fun q hq => h q (List.mem_cons_of_mem p hq))
    simp only [pagesFetched, hp, if_true, hrest, List.length_cons]
    omega

/-- C2 amended-claim witness over three all-hasNextPage pages. -/
theorem fetch_all_vacancies_no_cap_witness :
    pagesFetched (List.replicate 3
      { edges := [], pageInfo := { hasNextPage := true, endCursor := Option.none } })
      = (List.replicate 3
          ({ edges := [], pageInfo := { hasNextPage := true, endCursor := Option.none } }
            : PageResp)).length :=
  fetch_all_vacancies_no_cap _ (by decide)

/-! ## Claims about reconciliation -/

/-- Snapshot row used in the concrete reconciliation examples: fill rate
1/2, status OPEN, amount 100, first seen at 10. -/
def rowExampleA : Row :=
  { title := Option.some "Nurse", procured_amount := Option.some (mkRat 100 1),
    fill_rate := Option.some (mkRat 1 2), dynamic_status := Option.some "OPEN",
    first_seen_at := 10, last_updated_at := 10 }

/-- Store holding exactly the example snapshot under id v1. -/
def storeA : Store :=
  fun i => if i = "v1" then Option.some rowExampleA else Option.none

/-- Store with no rows. -/
def emptyStore : Store :=
  fun _ => Option.none

/-- Incoming record for v1 agreeing with the snapshot on fill rate and
status but carrying amount 200 instead of 100. -/
def vacAmountOnly : Vacancy :=
  { vacId := "v1", title := Option.some "Nurse", procuredAmount := Option.some (mkRat 200 1),
    tender := Option.some { tenderId := Option.some "t1", dynamicStatus := Option.some "OPEN",
                            fillRate := Option.some (mkRat 1 2) } }

/-- Incoming record for v1 agreeing with the snapshot on status and
amount but carrying fill rate 4/5 instead of 1/2. -/
def vacFillOnly : Vacancy :=
  { vacId := "v1", title := Option.some "Nurse", procuredAmount := Option.some (mkRat 100 1),
    tender := Option.some { tenderId := Option.some "t1", dynamicStatus := Option.some "OPEN",
                            fillRate := Option.some (mkRat 4 5) } }

/-- C3 counterexample: snapshot and incoming record agree on fill rate
and status while the monetary amount changed from 100 to 200, yet the
step classifies Unchanged and performs no write: the comparison of
lines 950 and 985-990 reads only fill_rate and dynamic_status, never
procured_amount. -/
theorem reconcile_amount_change_not_detected :
    reconcileStep storeA vacAmountOnly 50 = Option.some (Outcome.unchanged, storeA)
    ∧ rowExampleA.procured_amount ≠ vacAmountOnly.procuredAmount :=
  ⟨rfl, by decide⟩

/-- C3 (amended): for an id with a snapshot row, the comparison covers
exactly the fill rate and the dynamic status; the step leaves the store
untouched (classifying Unchanged) if and only if those two fields agree,
regardless of the monetary amount. -/
theorem reconcile_compares_fill_rate_and_status_only (store : Store) (v : Vacancy)
    (now : Int) (r : Row) (hr : store v.vacId = Option.some r) :
    reconcileStep store v now = Option.some (Outcome.unchanged, store)
      ↔ (r.fill_rate = v.tenderD.fillRate ∧ r.dynamic_status = v.tenderD.dynamicStatus) := by
  simp only [reconcileStep, hr]
  by_cases hc : r.fill_rate ≠ v.tenderD.fillRate ∨ r.dynamic_status ≠ v.tenderD.dynamicStatus
  · rw [if_pos hc]
    constructor
    · intro he
      exfalso
      cases hsv : save_vacancy store v false now <;> rw [hsv] at he <;> simp at he
    · intro hcc
      exact absurd hc (by simp [hcc.1, hcc.2])
  · rw [if_neg hc]
    push_neg at hc
    simp [hc.1, hc.2]

/-- C3 amended-claim witness at the concrete amount-only change. -/
theorem reconcile_compares_fill_rate_and_status_only_witness :
    reconcileStep storeA vacAmountOnly 50 = Option.some (Outcome.unchanged, storeA)
      ↔ (rowExampleA.fill_rate = vacAmountOnly.tenderD.fillRate
          ∧ rowExampleA.dynamic_status = vacAmountOnly.tenderD.dynamicStatus) :=
  reconcile_compares_fill_rate_and_status_only storeA vacAmountOnly 50 rowExampleA rfl

/-- C4 counterexample: the snapshot holds fill rate 1/2 and the incoming
record 4/5 with every other compared field equal, yet the changed-field
report is not just the fill rate: the update entry of lines 996-999
always lists both fill_rate and status, here including status although
its old and new values coincide. -/
theorem reconcile_changes_list_not_exact :
    (reconcileStep storeA vacFillOnly 50).map Prod.fst
      = Option.some (Outcome.updated
          [("fill_rate", JVal.jnum (mkRat 1 2), JVal.jnum (mkRat 4 5)),
           ("status", JVal.jstr "OPEN", JVal.jstr "OPEN")])
    ∧ rowExampleA.dynamic_status = vacFillOnly.tenderD.dynamicStatus :=
  ⟨rfl, rfl⟩

/-- C4 (amended): whenever the step classifies Updated, the attached
changes report lists both fields fill_rate and status, each with the
snapshot's and the incoming record's value, regardless of which of the
two actually differs; it is never restricted to the differing subset. -/
theorem reconcile_changes_always_both_fields (store : Store) (v : Vacancy) (now : Int)
    (r : Row) (cs : List (String × JVal × JVal)) (s : Store)
    (hr : store v.vacId = Option.some r)
    (hu : reconcileStep store v now = Option.some (Outcome.updated cs, s)) :
    cs = [("fill_rate", JVal.ofRat r.fill_rate, JVal.ofRat v.tenderD.fillRate),
          ("status", JVal.ofStr r.dynamic_status, JVal.ofStr v.tenderD.dynamicStatus)] := by
  simp only [reconcileStep, hr] at hu
  by_cases hc : r.fill_rate ≠ v.tenderD.fillRate ∨ r.dynamic_status ≠ v.tenderD.dynamicStatus
  · rw [if_pos hc] at hu
    cases hsv : save_vacancy store v false now <;> rw [hsv] at hu <;>
      simp [changesReport] at hu
    exact hu.1.symm
  · rw [if_neg hc] at hu
    simp at hu

/-- Store after the fill-rate-only update example is written at time 50:
the row carries the new fill rate, the new last_updated_at, and the old
first_seen_at. -/
def storeAfterFillUpdate : Store :=
  fun i =>
    if i = "v1" then Option.some
      { title := Option.some "Nurse", procured_amount := Option.some (mkRat 100 1),
        fill_rate := Option.some (mkRat 4 5), dynamic_status := Option.some "OPEN",
        first_seen_at := 10, last_updated_at := 50 }
    else storeA i

/-- C4 amended-claim witness at the fill-rate-only change. -/
theorem reconcile_changes_always_both_fields_witness :
    [("fill_rate", JVal.jnum (mkRat 1 2), JVal.jnum (mkRat 4 5)),
     ("status", JVal.jstr "OPEN", JVal.jstr "OPEN")]
      = [("fill_rate", JVal.ofRat rowExampleA.fill_rate, JVal.ofRat vacFillOnly.tenderD.fillRate),
         ("status", JVal.ofStr rowExampleA.dynamic_status,
           JVal.ofStr vacFillOnly.tenderD.dynamicStatus)] :=
  reconcile_changes_always_both_fields storeA vacFillOnly 50 rowExampleA
    [("fill_rate", JVal.jnum (mkRat 1 2), JVal.jnum (mkRat 4 5)),
     ("status", JVal.jstr "OPEN", JVal.jstr "OPEN")]
    storeAfterFillUpdate rfl rfl

/-- C5: for an id that already has a snapshot row, the reconciliation
step never alters the stored first_seen_at — an Updated write keeps the
old value — and an Unchanged classification performs no write at all:
the resulting store is the input store, so last_updated_at is also left
untouched. -/
theorem reconcile_preserves_first_seen_at (store : Store) (v : Vacancy) (now : Int)
    (r : Row) (o : Outcome) (s : Store)
    (hr : store v.vacId = Option.some r)
    (hs : reconcileStep store v now = Option.some (o, s)) :
    (s v.vacId).map Row.first_seen_at = Option.some r.first_seen_at
    ∧ (o = Outcome.unchanged → s = store) := by
  simp only [reconcileStep, hr] at hs
  by_cases hc : r.fill_rate ≠ v.tenderD.fillRate ∨ r.dynamic_status ≠ v.tenderD.dynamicStatus
  · rw [if_pos hc] at hs
    have hsv : save_vacancy store v false now = Option.some (fun i =>
        if i = v.vacId then Option.some
          { title := v.title, procured_amount := v.procuredAmount,
            fill_rate := v.tenderD.fillRate, dynamic_status := v.tenderD.dynamicStatus,
            first_seen_at := r.first_seen_at, last_updated_at := now }
        else store i) := by
      simp [save_vacancy, hr]
    rw [hsv] at hs
    simp only [Option.some.injEq, Prod.mk.injEq] at hs
    obtain ⟨ho, hss⟩ := hs
    subst hss
    refine ⟨by simp, ?_⟩
    intro habs
    rw [← ho] at habs
    exact Outcome.noConfusion habs
  · rw [if_neg hc] at hs
    simp only [Option.some.injEq, Prod.mk.injEq] at hs
    obtain ⟨ho, hss⟩ := hs
    subst hss
    exact ⟨by rw [hr]; rfl, fun _ => rfl⟩

/-- C5 witness at the fill-rate-only change, an Updated case: the
written row keeps first_seen_at 10. -/
theorem reconcile_preserves_first_seen_at_witness :
    (storeAfterFillUpdate vacFillOnly.vacId).map Row.first_seen_at
      = Option.some rowExampleA.first_seen_at
    ∧ (Outcome.updated (changesReport rowExampleA.fill_rate vacFillOnly.tenderD.fillRate
          rowExampleA.dynamic_status vacFillOnly.tenderD.dynamicStatus) = Outcome.unchanged
        → storeAfterFillUpdate = storeA) :=
  reconcile_preserves_first_seen_at storeA vacFillOnly 50 rowExampleA
    (Outcome.updated (changesReport rowExampleA.fill_rate vacFillOnly.tenderD.fillRate
      rowExampleA.dynamic_status vacFillOnly.tenderD.dynamicStatus))
    storeAfterFillUpdate rfl rfl

/-- C9: reconciliation is idempotent: an id with no snapshot row is
classified New and a snapshot row is written; reapplying the same record
to the resulting store is classified Unchanged and writes nothing —
never New twice. -/
theorem reconcile_idempotent (store : Store) (v : Vacancy) (now1 now2 : Int)
    (h : store v.vacId = Option.none) :
    (reconcileStep store v now1).map Prod.fst = Option.some Outcome.newRecord
    ∧ ∀ s1, reconcileStep store v now1 = Option.some (Outcome.newRecord, s1) →
        reconcileStep s1 v now2 = Option.some (Outcome.unchanged, s1) := by
  have hstep : reconcileStep store v now1 = Option.some (Outcome.newRecord, fun i =>
      if i = v.vacId then Option.some
        { title := v.title, procured_amount := v.procuredAmount,
          fill_rate := v.tenderD.fillRate, dynamic_status := v.tenderD.dynamicStatus,
          first_seen_at := now1, last_updated_at := now1 }
      else store i) := by
    simp [reconcileStep, h, save_vacancy]
  constructor
  · rw [hstep]
    rfl
  · intro s1 h1
    rw [hstep] at h1
    simp only [Option.some.injEq, Prod.mk.injEq, true_and] at h1
    subst h1
    simp [reconcileStep]

/-- Store produced by first reconciling the fill-rate example record
into an empty store at time 5. -/
def storeAfterInsert : Store :=
  fun i =>
    if i = "v1" then Option.some
      { title := Option.some "Nurse", procured_amount := Option.some (mkRat 100 1),
        fill_rate := Option.some (mkRat 4 5), dynamic_status := Option.some "OPEN",
        first_seen_at := 5, last_updated_at := 5 }
    else emptyStore i

/-- C9 witness: the concrete record is New into the empty store, then
Unchanged against the store that application produced. -/
theorem reconcile_idempotent_witness :
    (reconcileStep emptyStore vacFillOnly 5).map Prod.fst = Option.some Outcome.newRecord
    ∧ reconcileStep storeAfterInsert vacFillOnly 6
        = Option.some (Outcome.unchanged, storeAfterInsert) := by
  have h := reconcile_idempotent emptyStore vacFillOnly 5 6 rfl
  exact ⟨h.1, h.2 storeAfterInsert rfl⟩
